/-
Verification of the netdisk_search plugin (src/main.py) against its
specification.  The Python code is shallowly embedded: every definition below
is translated from the source of `NetdiskSearchPlugin` in src/main.py.

Modelling conventions:
* Python strings are Lean `String` (a list of unicode characters); the string
  helpers (`pyReplace`, `pyStrip`, `pySplitWs`, `pyStartsWith`, `lowerStr`,
  `upperStr`) re-implement the exact Python `str` operations used by the
  source (`replace` replaces all non-overlapping occurrences left to right,
  `strip`/`split()` use whitespace, `lower`/`upper` act on ASCII letters --
  the source only ever compares ASCII and CJK tokens, which both
  sides leave unchanged).
* Python `int(...)` is `pyInt`, which accepts an optional sign followed by
  ASCII decimal digits and otherwise raises `ValueError` (modelled as
  `Except.error`).  `str.isdigit` is `pyIsDigit` per character; besides the
  ASCII digits we include the superscript digit characters, which satisfy
  `str.isdigit` in Python but are rejected by `int(...)` -- exactly the
  combination that makes `_parse_search_command` able to raise.
* Python timestamps (`datetime.now().timestamp()`) and config integers are
  modelled as `Int`; only differences and order comparisons of times occur.
* JSON values are `JVal`; Python truthiness is `truthy`; `dict.get` is
  `lookupA` on an association list (JSON objects have unique keys).
* Raised exceptions are `Except.error` carrying the Python message string
  `str(e)`.  `except` blocks become `match`es on the `Except` value.
* The host event object, probed with `hasattr` chains in the source, is the
  structure `Event`: `user_id`/`group_id` are `none` when no attribute chain
  yields a truthy identifier (the probing itself is host-framework territory,
  outside the plugin logic).
* The plugin object's mutable attributes (`config` plus its mirror
  attributes, `user_last_request`, `search_count`) form `PluginState`;
  the entry point `run` returns its result together with the new state.
  `_save_config` writes `self.config` to disk; the persisted document is the
  `Config` value carried in the state.
* The entry point's Python return value `(False, None)` is `none`, and
  `(True, (ok, msg, "netdisk_search"))` is `some (ok, msg, "netdisk_search")`.
-/
import Mathlib

namespace NetdiskSearch

/-! ### Python string primitives -/

/-- Python `str.strip()` / `str.split()` whitespace test (ASCII whitespace;
the source never feeds other space characters through these calls). -/
def pySpace (c : Char) : Bool := c.isWhitespace

/-- Does the character list `pat` occur at the front of `s`? -/
def listLeads : List Char → List Char → Bool
  | [], _ => true
  | _ :: _, [] => false
  | p :: ps, c :: cs => p = c && listLeads ps cs

/-- Does the character list `pat` occur at the back of `s`? -/
def listTrails (pat s : List Char) : Bool :=
  listLeads pat.reverse s.reverse

/-- Fuel-indexed worker for `pyReplace`; the fuel is always at least the
length of the subject, so it never runs out. -/
def replFuel : Nat → List Char → List Char → List Char → List Char
  | 0, s, _, _ => s
  | _ + 1, [], _, _ => []
  | n + 1, c :: cs, pat, rep =>
    if !pat.isEmpty && listLeads pat (c :: cs) then
      rep ++ replFuel n (List.drop pat.length (c :: cs)) pat rep
    else
      c :: replFuel n cs pat rep

/-- Python `s.replace(pat, rep)`: replace all non-overlapping occurrences,
scanning left to right (for the non-empty patterns the source uses). -/
def pyReplace (s pat rep : String) : String :=
  ⟨replFuel (s.data.length + 1) s.data pat.data rep.data⟩

/-- Python `s.strip()` with no argument: drop leading and trailing
whitespace. -/
def pyStrip (s : String) : String :=
  ⟨((s.data.dropWhile pySpace).reverse.dropWhile pySpace).reverse⟩

/-- Worker for `pySplitWs`: `acc` is the reversed current word. -/
def splitWsAux : List Char → List Char → List String
  | [], [] => []
  | [], acc => [⟨acc.reverse⟩]
  | c :: cs, acc =>
    if pySpace c then
      match acc with
      | [] => splitWsAux cs []
      | _ :: _ => ⟨acc.reverse⟩ :: splitWsAux cs []
    else
      splitWsAux cs (c :: acc)

/-- Python `s.split()` with no argument: split on whitespace runs and drop
empty fields. -/
def pySplitWs (s : String) : List String :=
  splitWsAux s.data []

/-- Python `s.startswith(pre)`. -/
def pyStartsWith (s pre : String) : Bool :=
  listLeads pre.data s.data

/-- Python `s.lower()` (ASCII letters; identity on the CJK tokens the source
compares). -/
def lowerStr (s : String) : String := ⟨s.data.map Char.toLower⟩

/-- Python `s.upper()` (ASCII letters; identity on the CJK tokens the source
compares). -/
def upperStr (s : String) : String := ⟨s.data.map Char.toUpper⟩

/-- Python `str.isdigit`, per character, on the characters this development
needs: the ASCII decimal digits plus the superscript digits, which Python
also counts as digits although `int(...)` rejects them. -/
def pyIsDigit (c : Char) : Bool :=
  c.isDigit || c = '¹' || c = '²' || c = '³'

/-- Decimal value of a list of ASCII digits. -/
def listToNat : List Char → Nat :=
  List.foldl (fun a c => a * 10 + (c.toNat - 48)) 0

/-- The `ValueError` message of Python `int(s)` on a bad literal. -/
def intErrMsg (s : String) : String :=
  "invalid literal for int() with base 10: '" ++ s ++ "'"

/-- Python `int(s)` on a whitespace-free token: an optional sign followed by
ASCII decimal digits; anything else raises `ValueError`. -/
def pyInt (s : String) : Except String Int :=
  match s.data with
  | [] => .error (intErrMsg s)
  | c :: rest =>
    if c = '-' then
      if !rest.isEmpty && rest.all Char.isDigit then
        .ok (-(listToNat rest : Int))
      else .error (intErrMsg s)
    else if c = '+' then
      if !rest.isEmpty && rest.all Char.isDigit then
        .ok (listToNat rest : Int)
      else .error (intErrMsg s)
    else if (c :: rest).all Char.isDigit then
      .ok (listToNat (c :: rest) : Int)
    else .error (intErrMsg s)

/-! ### Association lists (Python dicts with string keys) -/

/-- `d.get(key)` on a Python dict modelled as an insertion-ordered
association list. -/
def lookupA {α : Type} : List (String × α) → String → Option α
  | [], _ => none
  | (k, v) :: rest, key => if k = key then some v else lookupA rest key

/-- `d[key] = v` on a Python dict: update in place, or append a new key. -/
def setA {α : Type} : List (String × α) → String → α → List (String × α)
  | [], key, v => [(key, v)]
  | (k, w) :: rest, key, v =>
    if k = key then (k, v) :: rest else (k, w) :: setA rest key v

/-! ### JSON values and Python truthiness -/

/-- JSON values as delivered by `response.json()`. -/
inductive JVal : Type where
  | jnull : JVal
  | jbool : Bool → JVal
  | jnum : Int → JVal
  | jstr : String → JVal
  | jlist : List JVal → JVal
  | jdict : List (String × JVal) → JVal

/-- Python truthiness of a JSON value. -/
def truthy : JVal → Bool
  | .jnull => false
  | .jbool b => b
  | .jnum n => n != 0
  | .jstr s => !s.data.isEmpty
  | .jlist xs => !xs.isEmpty
  | .jdict kvs => !kvs.isEmpty

/-- Python `len(...)` on a JSON value; `none` models the `TypeError` raised
on values without a length. -/
def pyLen : JVal → Option Nat
  | .jstr s => some s.data.length
  | .jlist xs => some xs.length
  | .jdict kvs => some kvs.length
  | _ => none

/-- How an f-string renders a JSON value (`str(v)` in Python); the claims
only ever display numbers and strings. -/
def toDisplay : JVal → String
  | .jnull => "None"
  | .jbool b => if b then "True" else "False"
  | .jnum n => toString n
  | .jstr s => s
  | .jlist _ => "[...]"
  | .jdict _ => "{...}"

/-- Python list slicing `xs[:n]`, including the negative-bound case. -/
def pySliceTo {α : Type} (xs : List α) (n : Int) : List α :=
  if 0 ≤ n then xs.take n.toNat
  else xs.take (xs.length - min xs.length (-n).toNat)

/-! ### `_parse_search_command` (src/main.py lines 333-381) -/

/-- The parsed search request dict built by `_parse_search_command`. -/
structure SearchParams where
  q : String
  page : Int
  size : Int
  time : String
  type : String
  exact : Bool
deriving DecidableEq

/-- The time-range token set of the parser (line 362). -/
def timeTokens : List String :=
  ["week", "month", "three_month", "year", "一周", "一月", "三月", "一年"]

/-- `time_map.get(param, param)` (lines 363-367). -/
def timeName (param : String) : String :=
  if param = "一周" then "week"
  else if param = "一月" then "month"
  else if param = "三月" then "three_month"
  else if param = "一年" then "year"
  else param

/-- The resource-type token set matched against `param.upper()` (line 369). -/
def typeTokens : List String :=
  ["BDY", "ALY", "QUARK", "XUNLEI", "百度", "阿里", "夸克", "迅雷"]

/-- `type_map.get(param, param.upper())` (lines 370-374). -/
def typeName (param : String) : String :=
  if param = "百度" then "BDY"
  else if param = "阿里" then "ALY"
  else if param = "夸克" then "QUARK"
  else if param = "迅雷" then "XUNLEI"
  else upperStr param

/-- The exact-match token set (line 376). -/
def exactTokens : List String := ["exact", "精确", "准确"]

/-- The token-classification loop of `_parse_search_command`
(lines 354-379); an `.error` is the `ValueError` raised by `int(param)` on a
non-ASCII digit token. -/
def parse_tokens : List String → SearchParams → Except String SearchParams
  | [], ps => .ok ps
  | tok :: rest, ps =>
    let param := lowerStr tok
    if !param.data.isEmpty && param.data.all pyIsDigit then
      match pyInt param with
      | .ok n => parse_tokens rest { ps with page := min n 50 }
      | .error e => .error e
    else if timeTokens.contains param then
      parse_tokens rest { ps with time := timeName param }
    else if typeTokens.contains (upperStr param) then
      parse_tokens rest { ps with type := typeName param }
    else if exactTokens.contains param then
      parse_tokens rest { ps with exact := true }
    else
      parse_tokens rest ps

/-- `_parse_search_command(message)`: `.ok none` is Python `None` (parse
failure), `.error` a raised `ValueError`. -/
def parse_search_command (message : String) (max_results : Int) :
    Except String (Option SearchParams) :=
  let content := pyStrip (pyReplace (pyReplace message "/搜索" "") "/search" "")
  if content.data.isEmpty then .ok none
  else
    match pySplitWs content with
    | [] => .ok none
    | q :: rest =>
      (parse_tokens rest
        { q := q, page := 1, size := max_results,
          time := "", type := "", exact := false }).map some

/-! ### `_format_results` (src/main.py lines 424-494) -/

/-- `data.get("success", data.get("status") == "ok")` (line 431) followed by
the truthiness test of line 432. -/
def successOf (d : List (String × JVal)) : Bool :=
  match lookupA d "success" with
  | some v => truthy v
  | none =>
    match lookupA d "status" with
    | some (.jstr s) => s = "ok"
    | _ => false

/-- `data.get("data", data.get("results", []))` (line 435). -/
def resultsValOf (d : List (String × JVal)) : JVal :=
  match lookupA d "data" with
  | some v => v
  | none =>
    match lookupA d "results" with
    | some v => v
    | none => .jlist []

/-- `data.get("total", len(results))` (line 436); `.error` is the
`TypeError` of `len` on a length-less value. -/
def totalValOf (d : List (String × JVal)) : Except String JVal :=
  match lookupA d "total" with
  | some v => .ok v
  | none =>
    match pyLen (resultsValOf d) with
    | some n => .ok (.jnum (n : Int))
    | none => .error "object has no len()"

/-- The time-filter description table (lines 446-449). -/
def timeDesc (t : String) : String :=
  if t = "week" then "一周内"
  else if t = "month" then "一个月内"
  else if t = "three_month" then "三个月内"
  else if t = "year" then "一年内"
  else t

/-- The resource-type description table (lines 453-456). -/
def typeDesc (t : String) : String :=
  if t = "BDY" then "百度网盘"
  else if t = "ALY" then "阿里云盘"
  else if t = "QUARK" then "夸克网盘"
  else if t = "XUNLEI" then "迅雷云盘"
  else t

/-- The response text built on lines 442-459, up to and including the
`"="*30` separator. -/
def headerText (p : SearchParams) (total : JVal) : String :=
  "🔍 搜索「" ++ p.q ++ "」\n"
  ++ "📊 共找到 " ++ toDisplay total ++ " 个结果，显示第 "
  ++ toString p.page ++ " 页\n"
  ++ (if !p.time.data.isEmpty then "📅 时间范围：" ++ timeDesc p.time ++ "\n" else "")
  ++ (if !p.type.data.isEmpty then "💾 资源类型：" ++ typeDesc p.type ++ "\n" else "")
  ++ "\n" ++ (⟨List.replicate 30 '='⟩ : String) ++ "\n\n"

/-- One item block of the loop on lines 462-479; `.error` is the
`AttributeError` of `.get` on a non-dict item. -/
def renderItem (i : Nat) (item : JVal) : Except String String :=
  match item with
  | .jdict kvs =>
    let title := (lookupA kvs "title").getD ((lookupA kvs "name").getD (.jstr "未知文件"))
    let size := (lookupA kvs "size").getD ((lookupA kvs "filesize").getD (.jstr "未知大小"))
    let source := (lookupA kvs "source").getD ((lookupA kvs "platform").getD (.jstr "未知来源"))
    let link := (lookupA kvs "link").getD ((lookupA kvs "url").getD (.jstr ""))
    let updTime := (lookupA kvs "update_time").getD ((lookupA kvs "created_at").getD (.jstr ""))
    .ok ("📄 " ++ toString i ++ ". " ++ toDisplay title ++ "\n"
      ++ "💾 大小：" ++ toDisplay size ++ "\n"
      ++ "🔗 来源：" ++ toDisplay source ++ "\n"
      ++ (if truthy updTime then "⏰ 更新：" ++ toDisplay updTime ++ "\n" else "")
      ++ (if truthy link then "🌐 链接：" ++ toDisplay link ++ "\n" else "")
      ++ "\n")
  | _ => .error "object has no attribute get"

/-- The whole `enumerate(results[:max_results], 1)` loop; `i` is the running
enumeration index. -/
def renderItems : List JVal → Nat → Except String String
  | [], _ => .ok ""
  | item :: rest, i =>
    match renderItem i item with
    | .error e => .error e
    | .ok block =>
      match renderItems rest (i + 1) with
      | .error e => .error e
      | .ok tail => .ok (block ++ tail)

/-- The ready-to-send next-page command assembled on lines 483-490. -/
def nextPageCmd (p : SearchParams) : String :=
  "/搜索 " ++ p.q ++ " " ++ toString (p.page + 1)
  ++ (if !p.time.data.isEmpty then " " ++ p.time else "")
  ++ (if !p.type.data.isEmpty then " " ++ p.type else "")
  ++ (if p.exact then " exact" else "")

/-- The pagination hint of lines 482-492, given the `total` value used in
the comparison `total > page * size`; `.error` is the `TypeError` of
comparing a non-number with an `int` (Python `bool` compares as `0`/`1`). -/
def hintOf (total : JVal) (p : SearchParams) : Except String String :=
  match total with
  | .jnum t =>
    .ok (if p.page * p.size < t then "📄 查看下一页：" ++ nextPageCmd p else "")
  | .jbool b =>
    .ok (if p.page * p.size < (if b then (1 : Int) else 0)
         then "📄 查看下一页：" ++ nextPageCmd p else "")
  | _ => .error "unsupported comparison with int"

/-- `_format_results(data, params)` on a JSON-object response.  `.error`
models an exception escaping the method (caught by `_handle_search`); a
truthy non-list `results` value is modelled as the exception its slicing or
item `.get` raises. -/
def format_results (d : List (String × JVal)) (p : SearchParams)
    (max_results : Int) : Except String String :=
  if d.isEmpty then .ok "❌ 未找到相关资源"
  else if !successOf d then .ok "❌ 搜索请求失败"
  else
    match totalValOf d with
    | .error e => .error e
    | .ok total =>
      if !truthy (resultsValOf d) then .ok "📭 未找到相关资源，请尝试其他关键词"
      else
        match resultsValOf d with
        | .jlist rs =>
          match renderItems (pySliceTo rs max_results) 1 with
          | .error e => .error e
          | .ok items =>
            match hintOf total p with
            | .error e => .error e
            | .ok hint => .ok (headerText p total ++ items ++ hint)
        | _ => .error "slicing a non-list"

/-! ### Plugin state, events, permission and rate limit
(src/main.py lines 22-160, 245-312) -/

/-- The persisted configuration document; the source mirrors each field in a
plugin attribute (`self.token`, `self.max_results`, ...) that is kept equal
to the dict entry, so one record models both. -/
structure Config where
  token : String
  max_results : Int
  request_interval : Int
  enabled_groups : List String
  admin_users : List String
deriving DecidableEq

/-- The mutable plugin attributes touched by `run`. -/
structure PluginState where
  cfg : Config
  user_last_request : List (String × Int)
  search_count : Nat
deriving DecidableEq

/-- An inbound host event after attribute probing: `user_id` (`group_id`) is
`none` when no probed attribute chain yields a truthy identifier, otherwise
the `str(...)` of the identifier found. -/
structure Event where
  message_str : String
  user_id : Option String
  group_id : Option String

/-- `_is_admin(ame)` (lines 272-287): member of `admin_users`, `False` when
no user id resolves. -/
def is_admin (admin_users : List String) (user_id : Option String) : Bool :=
  match user_id with
  | some u => admin_users.contains u
  | none => false

/-- `_check_permission(ame)` (lines 245-270). -/
def check_permission (enabled_groups admin_users : List String)
    (user_id group_id : Option String) : Bool :=
  if enabled_groups.isEmpty then true
  else if is_admin admin_users user_id then true
  else
    match group_id with
    | some g => enabled_groups.contains g
    | none => false

/-- `_check_rate_limit(ame)` (lines 289-312): `u` is the resolved user id
(the sentinel `"unknown"` when unresolvable), `now` the current timestamp.
Returns the decision together with the updated `user_last_request` map. -/
def check_rate_limit (m : List (String × Int)) (u : String)
    (now interval : Int) : Bool × List (String × Int) :=
  match lookupA m u with
  | some last =>
    if now - last < interval then (false, m) else (true, setA m u now)
  | none => (true, setA m u now)

/-! ### `_handle_config` (src/main.py lines 162-243) -/

/-- The configuration summary printed when `/网盘配置` has no arguments
(lines 168-183; a triple-quoted f-string, leading and trailing newline
included). -/
def configText (cfg : Config) : String :=
  "\n📝 网盘搜索插件配置\n\n🔑 API Token: "
  ++ (if !cfg.token.data.isEmpty then "已配置" else "未配置")
  ++ "\n📊 最大结果数: " ++ toString cfg.max_results
  ++ "\n⏰ 请求间隔: " ++ toString cfg.request_interval ++ "秒"
  ++ "\n👥 启用群组: " ++ toString cfg.enabled_groups.length ++ "个"
  ++ "\n👑 管理员: " ++ toString cfg.admin_users.length ++ "个"
  ++ "\n\n💡 配置命令：\n/网盘配置 token <你的token>\n/网盘配置 max_results <数量>\n/网盘配置 interval <秒数>\n/网盘配置 add_group <群号>\n/网盘配置 add_admin <用户ID>\n"

/-- The handled-result type of `run`: `none` is Python `(False, None)`,
`some (ok, msg, pid)` is `(True, (ok, msg, pid))`. -/
def RunRet : Type := Option (Bool × String × String)

/-- The token split of `_handle_config` (line 164). -/
def configTokens (message : String) : List String :=
  pySplitWs (pyStrip (pyReplace (pyReplace message "/网盘配置" "") "/netconfig" ""))

/-- `_handle_config(message)` (lines 162-243), returning the handled result
and the new configuration (which `_save_config` persists whenever it
changed). -/
def handle_config (message : String) (cfg : Config) : RunRet × Config :=
  match configTokens message with
  | [] => (some (true, configText cfg, "netdisk_search"), cfg)
  | [_] => (some (false, "❌ 配置格式错误，请查看配置帮助", "netdisk_search"), cfg)
  | k :: v :: _ =>
    let key := lowerStr k
    if key = "token" then
      (some (true, "✅ API Token 配置成功", "netdisk_search"), { cfg with token := v })
    else if key = "max_results" then
      match pyInt v with
      | .ok n =>
        if 1 ≤ n ∧ n ≤ 50 then
          (some (true, "✅ 最大结果数设置为 " ++ toString n, "netdisk_search"),
            { cfg with max_results := n })
        else
          (some (false, "❌ 最大结果数必须在1-50之间", "netdisk_search"), cfg)
      | .error _ => (some (false, "❌ 请输入有效的数字", "netdisk_search"), cfg)
    else if key = "interval" then
      match pyInt v with
      | .ok n =>
        if 1 ≤ n ∧ n ≤ 60 then
          (some (true, "✅ 请求间隔设置为 " ++ toString n ++ "秒", "netdisk_search"),
            { cfg with request_interval := n })
        else
          (some (false, "❌ 请求间隔必须在1-60秒之间", "netdisk_search"), cfg)
      | .error _ => (some (false, "❌ 请输入有效的数字", "netdisk_search"), cfg)
    else if key = "add_group" then
      if !cfg.enabled_groups.contains v then
        (some (true, "✅ 已添加群组 " ++ v, "netdisk_search"),
          { cfg with enabled_groups := cfg.enabled_groups ++ [v] })
      else
        (some (false, "❌ 该群组已存在", "netdisk_search"), cfg)
    else if key = "add_admin" then
      if !cfg.admin_users.contains v then
        (some (true, "✅ 已添加管理员 " ++ v, "netdisk_search"),
          { cfg with admin_users := cfg.admin_users ++ [v] })
      else
        (some (false, "❌ 该用户已是管理员", "netdisk_search"), cfg)
    else
      (some (false, "❌ 未知配置项", "netdisk_search"), cfg)

/-! ### `_get_help_text`, `_handle_search` and `run`
(src/main.py lines 103-160, 314-331, 496-524) -/

/-- `_get_help_text()` (lines 496-524; a triple-quoted f-string). -/
def helpText (search_count : Nat) : String :=
  "\n🔍 网盘搜索插件帮助\n\n📝 基本用法：\n/搜索 关键词 [页码] [参数]\n\n📋 参数说明：\n• 页码：1, 2, 3... (默认第1页)\n• 时间：week/一周, month/一月, three_month/三月, year/一年\n• 类型：BDY/百度, ALY/阿里, QUARK/夸克, XUNLEI/迅雷\n• 精确：exact/精确 (精确匹配)\n\n💡 使用示例：\n/搜索 Python教程\n/搜索 电影 2 month BDY\n/搜索 小说 1 week exact\n/搜索 纪录片 阿里 精确\n\n❓ 其他命令：\n/网盘帮助 - 显示此帮助\n/网盘配置 - 插件配置（管理员）\n\n📊 插件统计：\n总搜索次数：" ++ toString search_count ++ "\n"

/-- The message returned on a parse failure (line 319). -/
def parseFailMsg : String :=
  "❌ 搜索格式错误！\n请使用：/搜索 关键词 [页码] [参数]\n发送 /网盘帮助 查看详细用法"

/-- `_handle_search(message)` (lines 314-331).  The search API
(`_search_api`, lines 383-422) catches every exception itself and collapses
non-200/timeout/transport failures to `None`, so it is the oracle
`api : SearchParams → Option dict`; `.error` of the whole call is an
exception raised before its `try` block, i.e. by `_parse_search_command`. -/
def handle_search (message : String) (max_results : Int)
    (api : SearchParams → Option (List (String × JVal))) : Except String String :=
  match parse_search_command message max_results with
  | .error e => .error e
  | .ok none => .ok parseFailMsg
  | .ok (some p) =>
    match api p with
    | none => .ok "❌ 搜索失败，请检查网络或稍后重试"
    | some d =>
      match format_results d p max_results with
      | .ok s => .ok s
      | .error e => .ok ("❌ 搜索出错：" ++ e)

/-- Does the trimmed message start with one of the six recognized command
forms (lines 116-118)? -/
def recognized (message : String) : Bool :=
  pyStartsWith message "/搜索" || pyStartsWith message "/search"
  || pyStartsWith message "/网盘帮助" || pyStartsWith message "/nethelp"
  || pyStartsWith message "/网盘配置" || pyStartsWith message "/netconfig"

/-- The body of the `try` block of `run` (lines 121-155), on the trimmed
message.  `.ok` pairs the returned value with the new state; `.error` is an
uncaught exception together with the state at the moment it was raised
(the rate-limit map has already been updated then). -/
def dispatch (st : PluginState) (ev : Event) (message : String) (now : Int)
    (api : SearchParams → Option (List (String × JVal))) :
    Except (String × PluginState) (RunRet × PluginState) :=
  if pyStartsWith message "/网盘配置" || pyStartsWith message "/netconfig" then
    if is_admin st.cfg.admin_users ev.user_id then
      let (r, cfg') := handle_config message st.cfg
      .ok (r, { st with cfg := cfg' })
    else
      .ok (some (false, "❌ 仅管理员可以使用配置功能", "netdisk_search"), st)
  else if st.cfg.token.data.isEmpty then
    .ok (some (false, "❌ 插件未配置API Token，请联系管理员配置", "netdisk_search"), st)
  else if !check_permission st.cfg.enabled_groups st.cfg.admin_users
      ev.user_id ev.group_id then
    .ok (some (false, "❌ 您没有权限使用此插件", "netdisk_search"), st)
  else
    let rl := check_rate_limit st.user_last_request (ev.user_id.getD "unknown")
      now st.cfg.request_interval
    let st1 := { st with user_last_request := rl.2 }
    if !rl.1 then
      .ok (some (false, "⏰ 请求过于频繁，请稍后再试", "netdisk_search"), st1)
    else if pyStartsWith message "/网盘帮助" || pyStartsWith message "/nethelp" then
      .ok (some (true, helpText st1.search_count, "netdisk_search"), st1)
    else if pyStartsWith message "/搜索" || pyStartsWith message "/search" then
      match handle_search message st1.cfg.max_results api with
      | .error e => .error (e, st1)
      | .ok result =>
        if !result.data.isEmpty then
          .ok (some (true, result, "netdisk_search"),
            { st1 with search_count := st1.search_count + 1 })
        else
          .ok (some (false, "❌ 搜索失败，请检查参数或稍后重试", "netdisk_search"), st1)
    else
      .ok (none, st1)

/-- `run(ame)` (lines 103-160): trim the message, ignore unrecognized text,
and wrap the dispatch in the top-level `except Exception` handler. -/
def run (st : PluginState) (ev : Event) (now : Int)
    (api : SearchParams → Option (List (String × JVal))) : RunRet × PluginState :=
  let message := pyStrip ev.message_str
  if !recognized message then ((none : RunRet), st)
  else
    match dispatch st ev message now api with
    | .ok r => r
    | .error (e, st') =>
      (some (false, "❌ 插件运行出错：" ++ e, "netdisk_search"), st')

/-! ### Auxiliary predicates and sample inputs used by the theorems -/

/-- Does `s` end with `suffix`? -/
def strEndsWith (s suffix : String) : Bool :=
  listTrails suffix.data s.data

/-- A plugin state with a configured token, open permissions and an empty
rate-limit map. -/
def sampleState : PluginState := ⟨⟨"t", 10, 3, [], []⟩, [], 0⟩

/-- An event carrying a bare `/搜索` command (no query: a parse failure). -/
def sampleEventNoQuery : Event := ⟨"/搜索", some "u1", none⟩

/-- An event whose page token `²` satisfies `str.isdigit` but makes
`int(...)` raise `ValueError`. -/
def sampleEventRaise : Event := ⟨"/搜索 a ²", some "u1", none⟩

/-- A search API oracle that always fails (`_search_api` returned `None`). -/
def apiNone : SearchParams → Option (List (String × JVal)) := fun _ => none

/-- Default search parameters for query `"x"`. -/
def sampleParams : SearchParams := ⟨"x", 1, 10, "", "", false⟩

/-- The parameters of the end-to-end formatting example: query `"foo"`,
page 1, size 10, no filters. -/
def examParams : SearchParams := ⟨"foo", 1, 10, "", "", false⟩

/-- The response of the end-to-end formatting example: success, 15 items,
`total = 40`. -/
def examDict : List (String × JVal) :=
  [("success", .jbool true),
   ("data", .jlist ((List.range 15).map
      (fun i => .jdict [("title", .jstr ("t" ++ toString (i + 1)))]))),
   ("total", .jnum 40)]

/-- The text `_format_results` produces on `examDict`/`examParams`: exactly
ten rendered items followed by the next-page hint. -/
def examExpected : String :=
  "🔍 搜索「foo」\n📊 共找到 40 个结果，显示第 1 页\n\n==============================\n\n📄 1. t1\n💾 大小：未知大小\n🔗 来源：未知来源\n\n📄 2. t2\n💾 大小：未知大小\n🔗 来源：未知来源\n\n📄 3. t3\n💾 大小：未知大小\n🔗 来源：未知来源\n\n📄 4. t4\n💾 大小：未知大小\n🔗 来源：未知来源\n\n📄 5. t5\n💾 大小：未知大小\n🔗 来源：未知来源\n\n📄 6. t6\n💾 大小：未知大小\n🔗 来源：未知来源\n\n📄 7. t7\n💾 大小：未知大小\n🔗 来源：未知来源\n\n📄 8. t8\n💾 大小：未知大小\n🔗 来源：未知来源\n\n📄 9. t9\n💾 大小：未知大小\n🔗 来源：未知来源\n\n📄 10. t10\n💾 大小：未知大小\n🔗 来源：未知来源\n\n📄 查看下一页：/搜索 foo 2"

/-- A single result item used by the implicit-total example. -/
def c10item : JVal := .jdict [("title", .jstr "a")]

/-- A successful response carrying one item and no `total` key. -/
def c10dict : List (String × JVal) :=
  [("success", .jbool true), ("data", .jlist [c10item])]

/-! ### Helper lemmas -/

theorem data_append (s t : String) : (s ++ t).data = s.data ++ t.data := by
  cases s
  cases t
  rfl

theorem eq_empty_of_data_eq_nil {s : String} (h : s.data = []) : s = "" := by
  cases s with
  | mk d => cases h; rfl

theorem str_append_ne_empty (s t : String) (hs : s ≠ "") : s ++ t ≠ "" := by
  intro h
  have h2 : s.data ++ t.data = [] := by
    rw [← data_append, h]
  exact hs (eq_empty_of_data_eq_nil (List.append_eq_nil.mp h2).1)

theorem str_append_assoc (a b c : String) : (a ++ b) ++ c = a ++ (b ++ c) := by
  cases a with
  | mk la =>
    cases b with
    | mk lb =>
      cases c with
      | mk lc =>
        show String.mk ((la ++ lb) ++ lc) = String.mk (la ++ (lb ++ lc))
        rw [List.append_assoc]

theorem str_append_empty (s : String) : s ++ "" = s := by
  cases s with
  | mk l =>
    show String.mk (l ++ []) = String.mk l
    rw [List.append_nil]

theorem listLeads_append_self (l t : List Char) : listLeads l (l ++ t) = true := by
  induction l with
  | nil => rfl
  | cons c cs ih => simp [listLeads, ih]

theorem listTrails_append_self (a b : List Char) : listTrails b (a ++ b) = true := by
  unfold listTrails
  rw [List.reverse_append]
  exact listLeads_append_self b.reverse a.reverse

theorem strEndsWith_append (s t : String) : strEndsWith (s ++ t) t = true := by
  unfold strEndsWith
  rw [data_append]
  exact listTrails_append_self s.data t.data

theorem lookupA_setA_self {α : Type} (m : List (String × α)) (k : String) (v : α) :
    lookupA (setA m k v) k = some v := by
  induction m with
  | nil => simp [setA, lookupA]
  | cons kv rest ih =>
    obtain ⟨k', w⟩ := kv
    by_cases h : k' = k
    · simp [setA, h, lookupA]
    · simp [setA, h, lookupA, ih]

theorem headerText_ne_empty (p : SearchParams) (total : JVal) :
    headerText p total ≠ "" := by
  unfold headerText
  repeat apply str_append_ne_empty
  decide

theorem successOf_nil : successOf [] = false := rfl

theorem isEmpty_false_of_successOf_true {d : List (String × JVal)}
    (h : successOf d = true) : d.isEmpty = false := by
  cases d with
  | nil => rw [successOf_nil] at h; cases h
  | cons kv rest => rfl

theorem format_results_ok_ne_empty {d : List (String × JVal)} {p : SearchParams}
    {mr : Int} {s : String} (h : format_results d p mr = .ok s) : s ≠ "" := by
  unfold format_results at h
  split at h
  · cases h; decide
  · split at h
    · cases h; decide
    · split at h
      · cases h
      · split at h
        · cases h; decide
        · split at h
          · split at h
            · cases h
            · split at h
              · cases h
              · cases h
                exact str_append_ne_empty _ _
                  (str_append_ne_empty _ _ (headerText_ne_empty _ _))
          · cases h

theorem handle_search_ok_ne_empty {m : String} {mr : Int}
    {api : SearchParams → Option (List (String × JVal))} {r : String}
    (h : handle_search m mr api = .ok r) : r ≠ "" := by
  unfold handle_search at h
  split at h
  · cases h
  · cases h; decide
  · split at h
    · cases h; decide
    · split at h
      · next heq => cases h; exact format_results_ok_ne_empty heq
      · cases h; exact str_append_ne_empty _ _ (by decide)

theorem parse_tokens_size {toks : List String} {ps ps' : SearchParams}
    (h : parse_tokens toks ps = .ok ps') : ps'.size = ps.size := by
  induction toks generalizing ps with
  | nil => cases h; rfl
  | cons tok rest ih =>
    unfold parse_tokens at h
    dsimp only at h
    split at h
    · split at h
      · have hres := ih h
        exact hres
      · cases h
    · split at h
      · have hres := ih h
        exact hres
      · split at h
        · have hres := ih h
          exact hres
        · split at h
          · have hres := ih h
            exact hres
          · have hres := ih h
            exact hres

theorem pyInt_nonneg_of_pyDigits {s : String} {n : Int}
    (hall : s.data.all pyIsDigit = true) (h : pyInt s = .ok n) : 0 ≤ n := by
  unfold pyInt at h
  split at h
  · cases h
  · next c rest heq =>
    rw [heq] at hall
    simp only [List.all_cons, Bool.and_eq_true] at hall
    split at h
    · next hc => rw [hc] at hall; exact absurd hall.1 (by decide)
    · split at h
      · next hc => rw [hc] at hall; exact absurd hall.1 (by decide)
      · split at h
        · cases h; exact Int.natCast_nonneg _
        · cases h

theorem parse_tokens_page {toks : List String} {ps ps' : SearchParams}
    (h : parse_tokens toks ps = .ok ps') (h0 : 0 ≤ ps.page)
    (h50 : ps.page ≤ 50) : 0 ≤ ps'.page ∧ ps'.page ≤ 50 := by
  induction toks generalizing ps with
  | nil => cases h; exact ⟨h0, h50⟩
  | cons tok rest ih =>
    unfold parse_tokens at h
    dsimp only at h
    split at h
    · next hguard =>
      split at h
      · next n hok =>
        have hn : 0 ≤ n := by
          apply pyInt_nonneg_of_pyDigits ?_ hok
          simp only [Bool.and_eq_true] at hguard
          exact hguard.2
        have hres := ih h (le_min hn (by decide)) (min_le_right _ _)
        exact hres
      · cases h
    · split at h
      · have hres := ih h h0 h50
        exact hres
      · split at h
        · have hres := ih h h0 h50
          exact hres
        · split at h
          · have hres := ih h h0 h50
            exact hres
          · have hres := ih h h0 h50
            exact hres

theorem parse_search_size {m : String} {mr : Int} {p : SearchParams}
    (h : parse_search_command m mr = .ok (some p)) : p.size = mr := by
  unfold parse_search_command at h
  dsimp only at h
  split at h
  · cases h
  · split at h
    · cases h
    · cases hpt : parse_tokens _ _ with
      | error e => rw [hpt] at h; cases h
      | ok ps' =>
        rw [hpt] at h
        cases h
        have hres := parse_tokens_size hpt
        exact hres

theorem contains_iff_mem {l : List String} {a : String} :
    l.contains a = true ↔ a ∈ l := List.elem_iff

/-! ### Claim theorems -/

/-- C1: for every user, if a second request arrives less than
`request_interval` seconds after that user's last allowed request,
`_check_rate_limit` returns false and the stored timestamp for that user is
left unchanged (the whole map is unchanged); whenever `_check_rate_limit`
returns true, the stored timestamp for that user is updated to the current
time. -/
theorem c1_rate_limiter (m : List (String × Int)) (u : String)
    (now interval last : Int) :
    (lookupA m u = some last → now - last < interval →
      check_rate_limit m u now interval = (false, m)) ∧
    (∀ m' : List (String × Int), check_rate_limit m u now interval = (true, m') →
      lookupA m' u = some now) := by
  constructor
  · intro hl hlt
    unfold check_rate_limit
    rw [hl]
    dsimp only
    rw [if_pos hlt]
  · intro m' h
    unfold check_rate_limit at h
    cases hl : lookupA m u with
    | none =>
      rw [hl] at h
      dsimp only at h
      cases h
      exact lookupA_setA_self m u now
    | some last' =>
      rw [hl] at h
      dsimp only at h
      by_cases hlt : now - last' < interval
      · rw [if_pos hlt] at h
        simp at h
      · rw [if_neg hlt] at h
        cases h
        exact lookupA_setA_self m u now

theorem c1_rate_limiter_witness :
    check_rate_limit [("u1", (10 : Int))] "u1" 11 3 = (false, [("u1", 10)]) ∧
    lookupA (check_rate_limit [("u1", (10 : Int))] "u1" 20 3).2 "u1" = some 20 := by
  constructor
  · exact (c1_rate_limiter [("u1", 10)] "u1" 11 3 10).1 rfl (by decide)
  · exact (c1_rate_limiter [("u1", 10)] "u1" 20 3 10).2 [("u1", 20)] rfl

/-- C2: `_check_permission` returns true when `enabled_groups` is empty;
when `enabled_groups` is non-empty it returns true exactly when the caller
is an admin or the event's resolvable group identifier is a member of
`enabled_groups`, and (for a non-admin caller) returns false when no group
identifier can be resolved. -/
theorem c2_permission (eg au : List String) (uid gid : Option String) :
    (eg.isEmpty = true → check_permission eg au uid gid = true) ∧
    (eg.isEmpty = false →
      (check_permission eg au uid gid = true ↔
        (is_admin au uid = true ∨ ∃ g, gid = some g ∧ g ∈ eg))) ∧
    (eg.isEmpty = false → is_admin au uid = false → gid = none →
      check_permission eg au uid gid = false) := by
  refine ⟨?_, ?_, ?_⟩
  · intro he
    simp [check_permission, he]
  · intro he
    by_cases ha : is_admin au uid = true
    · constructor
      · intro _
        exact Or.inl ha
      · intro _
        simp [check_permission, he, ha]
    · have ha' : is_admin au uid = false := Bool.eq_false_iff.mpr ha
      cases gid with
      | none => simp [check_permission, he, ha']
      | some g => simp [check_permission, he, ha', contains_iff_mem]
  · intro he ha hg
    simp [check_permission, he, ha, hg]

theorem c2_permission_witness :
    check_permission [] [] none none = true ∧
    check_permission ["g1"] [] none (some "g1") = true ∧
    check_permission ["g1"] [] none none = false := by
  refine ⟨?_, ?_, ?_⟩
  · exact (c2_permission [] [] none none).1 rfl
  · exact ((c2_permission ["g1"] [] none (some "g1")).2.1 rfl).mpr
      (Or.inr ⟨"g1", rfl, by simp⟩)
  · exact (c2_permission ["g1"] [] none none).2.2 rfl rfl rfl

/-- C7: tokens after the query are classified order-insensitively, with
Chinese and English synonyms normalised to the same canonical tag:
`/搜索 foo 2 month BDY exact` yields `q="foo"`, `page=2`, `time="month"`,
`type="BDY"`, `exact=true` (in any token order), and `一周` and `week` both
yield `time="week"`. -/
theorem c7_parser_classification :
    parse_search_command "/搜索 foo 2 month BDY exact" 10 =
      .ok (some ⟨"foo", 2, 10, "month", "BDY", true⟩) ∧
    parse_search_command "/搜索 foo exact BDY month 2" 10 =
      .ok (some ⟨"foo", 2, 10, "month", "BDY", true⟩) ∧
    parse_search_command "/搜索 x 一周" 10 =
      .ok (some ⟨"x", 1, 10, "week", "", false⟩) ∧
    parse_search_command "/搜索 x week" 10 =
      .ok (some ⟨"x", 1, 10, "week", "", false⟩) :=
  ⟨rfl, rfl, rfl, rfl⟩

/-- C3 counterexample: the claim "the page field lies in [1, 50]" fails on
the code: the digit token `0` passes `isdigit` and `min(int("0"), 50) = 0`,
so `/搜索 foo 0` parses to `page = 0 < 1`. -/
theorem c3_counterexample :
    parse_search_command "/搜索 foo 0" 10 =
      .ok (some ⟨"foo", 0, 10, "", "", false⟩) ∧
    ¬(1 ≤ (SearchParams.mk "foo" 0 10 "" "" false).page) :=
  ⟨rfl, by decide⟩

/-- C3 amended: for every search command the page field of the resulting
`SearchParams` lies in [0, 50]: numeric tokens are clamped to at most 50 and
are never negative, but the token `0` yields page 0, so the lower bound is 0
(the default, with no numeric token, is 1). -/
theorem c3_page_bound_amended (msg : String) (mr : Int) (p : SearchParams)
    (h : parse_search_command msg mr = .ok (some p)) :
    0 ≤ p.page ∧ p.page ≤ 50 := by
  unfold parse_search_command at h
  dsimp only at h
  split at h
  · cases h
  · split at h
    · cases h
    · cases hpt : parse_tokens _ _ with
      | error e => rw [hpt] at h; cases h
      | ok ps' =>
        rw [hpt] at h
        cases h
        have hres := parse_tokens_page hpt
          (by show (0 : Int) ≤ 1; decide) (by show (1 : Int) ≤ 50; decide)
        exact hres

theorem c3_page_bound_amended_witness :
    0 ≤ (SearchParams.mk "a" 50 10 "" "" false).page ∧
      (SearchParams.mk "a" 50 10 "" "" false).page ≤ 50 :=
  c3_page_bound_amended "/搜索 a 99" 10 ⟨"a", 50, 10, "", "", false⟩ rfl

theorem totalValOf_ok_of_results_list {d : List (String × JVal)} {rs : List JVal}
    (hr : resultsValOf d = .jlist rs) : ∃ t, totalValOf d = .ok t := by
  unfold totalValOf
  cases hl : lookupA d "total" with
  | some v => exact ⟨v, rfl⟩
  | none =>
    rw [hr]
    exact ⟨.jnum rs.length, rfl⟩

/-- C5 counterexample: the claim "for every response dict whose success flag
is false or absent, `_format_results` returns a request-failed message"
fails on the code: with the `success` key absent, `data.get("status") ==
"ok"` substitutes, so `{"status": "ok"}` takes the success path and yields
the not-found message, and the empty dict yields a third generic message;
neither equals the request-failed message. -/
theorem c5_counterexample :
    format_results [("status", JVal.jstr "ok")] sampleParams 10 =
      .ok "📭 未找到相关资源，请尝试其他关键词" ∧
    format_results [] sampleParams 10 = .ok "❌ 未找到相关资源" ∧
    ("📭 未找到相关资源，请尝试其他关键词" ≠ "❌ 搜索请求失败") ∧
    ("❌ 未找到相关资源" ≠ "❌ 搜索请求失败") :=
  ⟨rfl, rfl, by decide, by decide⟩

/-- C5 amended: for every non-empty response dict whose computed success
flag is false (the `success` key falsy when present, otherwise the `status`
key differing from the string `"ok"`), `_format_results` returns the
request-failed message without raising, even when the `data`/`results` keys
are entirely absent (they default to the empty list); a response whose
computed success flag is true but whose result list is empty yields the
distinct not-found message. -/
theorem c5_failure_amended (d : List (String × JVal)) (p : SearchParams)
    (mr : Int) :
    (d.isEmpty = false → successOf d = false →
      format_results d p mr = .ok "❌ 搜索请求失败") ∧
    (successOf d = true → resultsValOf d = .jlist [] →
      format_results d p mr = .ok "📭 未找到相关资源，请尝试其他关键词") ∧
    ("❌ 搜索请求失败" ≠ "📭 未找到相关资源，请尝试其他关键词") := by
  refine ⟨?_, ?_, by decide⟩
  · intro hne hs
    simp [format_results, hne, hs]
  · intro hs hr
    have hne := isEmpty_false_of_successOf_true hs
    obtain ⟨t, ht⟩ := totalValOf_ok_of_results_list hr
    simp [format_results, hne, hs, ht, hr, truthy]

theorem c5_failure_amended_witness :
    format_results [("success", JVal.jbool false)] sampleParams 10 =
      .ok "❌ 搜索请求失败" ∧
    format_results [("success", JVal.jbool true)] sampleParams 10 =
      .ok "📭 未找到相关资源，请尝试其他关键词" := by
  constructor
  · exact (c5_failure_amended [("success", JVal.jbool false)] sampleParams 10).1
      rfl rfl
  · exact (c5_failure_amended [("success", JVal.jbool true)] sampleParams 10).2.1
      rfl rfl

/-- C10: for every response dict that carries a non-empty result list but no
`total` key, the formatter uses a total equal to the length of the result
list, and consequently appends no next-page hint whenever that length is at
most `page * size`: the output is exactly header plus rendered items, with
nothing appended. -/
theorem c10_total_default (d : List (String × JVal)) (p : SearchParams)
    (mr : Int) (rs : List JVal) (htot : lookupA d "total" = none)
    (hr : resultsValOf d = .jlist rs) (hne : rs.isEmpty = false)
    (hs : successOf d = true) :
    totalValOf d = .ok (.jnum rs.length) ∧
    ((rs.length : Int) ≤ p.page * p.size →
      format_results d p mr =
        (renderItems (pySliceTo rs mr) 1).map
          (fun items => headerText p (.jnum rs.length) ++ items)) := by
  have htv : totalValOf d = .ok (.jnum rs.length) := by
    unfold totalValOf
    rw [htot, hr]
    rfl
  refine ⟨htv, ?_⟩
  intro hle
  have hde := isEmpty_false_of_successOf_true hs
  have hhint : hintOf (.jnum rs.length) p = .ok "" := by
    unfold hintOf
    dsimp only
    rw [if_neg (not_lt.mpr hle)]
  cases hri : renderItems (pySliceTo rs mr) 1 with
  | error e =>
    unfold format_results
    rw [hde, hs, htv, hr]
    simp [truthy, hne, hri, Except.map]
  | ok items =>
    unfold format_results
    rw [hde, hs, htv, hr]
    simp [truthy, hne, hri, hhint, Except.map, str_append_empty]

theorem c10_total_default_witness :
    totalValOf c10dict = .ok (.jnum 1) ∧
    format_results c10dict sampleParams 10 =
      (renderItems (pySliceTo [c10item] 10) 1).map
        (fun items => headerText sampleParams (.jnum 1) ++ items) := by
  have h := c10_total_default c10dict sampleParams 10 [c10item] rfl rfl rfl rfl
  exact ⟨h.1, h.2 (by decide)⟩

set_option maxRecDepth 8000 in
/-- C6: for every successful response (success flag computed true, results a
non-empty list), (1) only the first `max_results` items influence the
output, so at most `max_results` items are rendered; (2) whenever the total
exceeds `page * size`, the output ends with the next-page command carrying
the same query, `page + 1`, and the same time/type/exact filters; and (3) in
particular a response with 15 items, total 40, page 1 and size 10 renders
exactly the first 10 items followed by the hint `/搜索 foo 2`. -/
theorem c6_pagination :
    (∀ (d d' : List (String × JVal)) (p : SearchParams) (mr : Int)
        (rs rs' : List JVal),
      successOf d = true → successOf d' = true →
      resultsValOf d = .jlist rs → resultsValOf d' = .jlist rs' →
      totalValOf d = totalValOf d' →
      pySliceTo rs mr = pySliceTo rs' mr →
      rs.isEmpty = rs'.isEmpty →
      format_results d p mr = format_results d' p mr) ∧
    (∀ (d : List (String × JVal)) (p : SearchParams) (mr : Int)
        (rs : List JVal) (t : Int) (s : String),
      successOf d = true → resultsValOf d = .jlist rs → rs.isEmpty = false →
      totalValOf d = .ok (.jnum t) → p.page * p.size < t →
      format_results d p mr = .ok s →
      strEndsWith s (nextPageCmd p) = true) ∧
    format_results examDict examParams 10 = .ok examExpected := by
  refine ⟨?_, ?_, ?_⟩
  · intro d d' p mr rs rs' hs hs' hr hr' ht hslice hemp
    have hde := isEmpty_false_of_successOf_true hs
    have hde' := isEmpty_false_of_successOf_true hs'
    unfold format_results
    rw [hde, hde', hs, hs', ht, hr, hr']
    cases htv : totalValOf d' with
    | error e => rfl
    | ok t =>
      simp only [truthy, hemp, hslice]
  · intro d p mr rs t s hs hr hne ht hgt hok
    have hde := isEmpty_false_of_successOf_true hs
    unfold format_results at hok
    rw [hde, hs, ht, hr] at hok
    simp [truthy, hne] at hok
    cases hri : renderItems (pySliceTo rs mr) 1 with
    | error e => rw [hri] at hok; cases hok
    | ok items =>
      rw [hri] at hok
      dsimp only [hintOf] at hok
      rw [if_pos hgt] at hok
      cases hok
      rw [← str_append_assoc]
      exact strEndsWith_append _ _
  · rfl

set_option maxRecDepth 8000 in
theorem c6_pagination_witness :
    strEndsWith examExpected (nextPageCmd examParams) = true := by
  have h := c6_pagination
  exact h.2.1 examDict examParams 10
    ((List.range 15).map (fun i => .jdict [("title", .jstr ("t" ++ toString (i + 1)))]))
    40 examExpected rfl rfl rfl rfl (by decide) h.2.2

/-- C4 counterexample: the claim "unsuccessful searches do not increment
search_count" fails on the code: `_handle_search` always returns a non-empty
string, so `if result:` in `run` is true even for a parse failure; on the
bare command `/搜索` the parser returns `None`, the user receives the
parse-failure message, yet `search_count` is incremented. -/
theorem c4_counterexample :
    (run sampleState sampleEventNoQuery 0 apiNone).1 =
      some (true, parseFailMsg, "netdisk_search") ∧
    (run sampleState sampleEventNoQuery 0 apiNone).2.search_count =
      sampleState.search_count + 1 ∧
    parse_search_command (pyStrip sampleEventNoQuery.message_str)
      sampleState.cfg.max_results = .ok none :=
  ⟨rfl, rfl, rfl⟩

/-- C4 amended: `search_count` is incremented whenever a search command is
handled without an exception -- including parse failures and API failures --
because `_handle_search` always returns a non-empty string and `run`
increments on any truthy result; only a raised exception (or a non-search
command) leaves the counter unchanged. -/
theorem c4_counter_amended (st : PluginState) (ev : Event) (now : Int)
    (api : SearchParams → Option (List (String × JVal))) (r : String)
    (h1 : pyStartsWith (pyStrip ev.message_str) "/搜索" = true ∨
          pyStartsWith (pyStrip ev.message_str) "/search" = true)
    (h2a : pyStartsWith (pyStrip ev.message_str) "/网盘配置" = false)
    (h2b : pyStartsWith (pyStrip ev.message_str) "/netconfig" = false)
    (h3a : pyStartsWith (pyStrip ev.message_str) "/网盘帮助" = false)
    (h3b : pyStartsWith (pyStrip ev.message_str) "/nethelp" = false)
    (h4 : st.cfg.token.data.isEmpty = false)
    (h5 : check_permission st.cfg.enabled_groups st.cfg.admin_users
            ev.user_id ev.group_id = true)
    (h6 : (check_rate_limit st.user_last_request (ev.user_id.getD "unknown")
            now st.cfg.request_interval).1 = true)
    (h7 : handle_search (pyStrip ev.message_str) st.cfg.max_results api = .ok r) :
    run st ev now api =
      (some (true, r, "netdisk_search"),
        { st with
            user_last_request :=
              (check_rate_limit st.user_last_request (ev.user_id.getD "unknown")
                now st.cfg.request_interval).2,
            search_count := st.search_count + 1 }) ∧
    r ≠ "" := by
  have hr0 : r ≠ "" := handle_search_ok_ne_empty h7
  have hrb : (!r.data.isEmpty) = true := by
    cases hd : r.data with
    | nil => exact absurd (eq_empty_of_data_eq_nil hd) hr0
    | cons c l => rfl
  have hrec : recognized (pyStrip ev.message_str) = true := by
    unfold recognized
    rcases h1 with h | h <;> simp [h]
  have hsr : (pyStartsWith (pyStrip ev.message_str) "/搜索"
      || pyStartsWith (pyStrip ev.message_str) "/search") = true := by
    rcases h1 with h | h <;> simp [h]
  refine ⟨?_, hr0⟩
  unfold run dispatch
  simp [hrec, h2a, h2b, h4, h5, h3a, h3b, h6, h7, hrb, hsr]

theorem c4_counter_amended_witness :
    run sampleState sampleEventNoQuery 0 apiNone =
      (some (true, parseFailMsg, "netdisk_search"),
        { sampleState with
            user_last_request := [("u1", 0)], search_count := 1 }) ∧
    parseFailMsg ≠ "" := by
  have h := c4_counter_amended sampleState sampleEventNoQuery 0 apiNone
    parseFailMsg (Or.inl rfl) rfl rfl rfl rfl rfl rfl rfl rfl
  exact ⟨h.1, h.2⟩

/-- C8: for a `max_results` config command with integer value outside
1..50 the command is rejected and the stored config is unchanged; for a
value inside the range the new value is stored (and persisted by
`_save_config`) and is the `size` field of every subsequently parsed
search. -/
theorem c8_max_results (msg v : String) (n : Int) (cfg : Config)
    (hct : configTokens msg = ["max_results", v])
    (hv : pyInt v = .ok n) :
    (¬(1 ≤ n ∧ n ≤ 50) →
      handle_config msg cfg =
        (some (false, "❌ 最大结果数必须在1-50之间", "netdisk_search"), cfg)) ∧
    ((1 ≤ n ∧ n ≤ 50) →
      handle_config msg cfg =
        (some (true, "✅ 最大结果数设置为 " ++ toString n, "netdisk_search"),
          { cfg with max_results := n }) ∧
      ({ cfg with max_results := n } : Config).max_results = n ∧
      (∀ (m : String) (p : SearchParams),
        parse_search_command m ({ cfg with max_results := n } : Config).max_results
          = .ok (some p) → p.size = n)) := by
  constructor
  · intro hout
    unfold handle_config
    rw [hct]
    dsimp only
    rw [if_neg (by decide : ¬(lowerStr "max_results" = "token")),
        if_pos (by decide : lowerStr "max_results" = "max_results"), hv]
    dsimp only
    rw [if_neg hout]
  · intro hin
    refine ⟨?_, rfl, ?_⟩
    · unfold handle_config
      rw [hct]
      dsimp only
      rw [if_neg (by decide : ¬(lowerStr "max_results" = "token")),
          if_pos (by decide : lowerStr "max_results" = "max_results"), hv]
      dsimp only
      rw [if_pos hin]
    · intro m p hp
      have hres := parse_search_size hp
      exact hres

theorem c8_max_results_witness :
    handle_config "/网盘配置 max_results 100" sampleState.cfg =
      (some (false, "❌ 最大结果数必须在1-50之间", "netdisk_search"),
        sampleState.cfg) ∧
    handle_config "/网盘配置 max_results 25" sampleState.cfg =
      (some (true, "✅ 最大结果数设置为 25", "netdisk_search"),
        { sampleState.cfg with max_results := 25 }) ∧
    (SearchParams.mk "x" 1 25 "" "" false).size = 25 := by
  refine ⟨?_, ?_, ?_⟩
  · exact (c8_max_results "/网盘配置 max_results 100" "100" 100
      sampleState.cfg rfl rfl).1 (by decide)
  · exact ((c8_max_results "/网盘配置 max_results 25" "25" 25
      sampleState.cfg rfl rfl).2 (by decide)).1
  · exact ((c8_max_results "/网盘配置 max_results 25" "25" 25
      sampleState.cfg rfl rfl).2 (by decide)).2.2 "/搜索 x"
      ⟨"x", 1, 25, "", "", false⟩ rfl

/-- C9: for every inbound event whose message is a recognized command,
`run` never propagates an exception to the host: whatever the `try` body
(`dispatch`) does, `run` returns a plain handled result, and when the body
raises, the exception is converted at top level into a handled result
carrying the generic error string. -/
theorem c9_exception_safety (st : PluginState) (ev : Event) (now : Int)
    (api : SearchParams → Option (List (String × JVal)))
    (hrec : recognized (pyStrip ev.message_str) = true) :
    (∀ (e : String) (st' : PluginState),
      dispatch st ev (pyStrip ev.message_str) now api = .error (e, st') →
      run st ev now api =
        (some (false, "❌ 插件运行出错：" ++ e, "netdisk_search"), st')) ∧
    (∀ r : RunRet × PluginState,
      dispatch st ev (pyStrip ev.message_str) now api = .ok r →
      run st ev now api = r) := by
  constructor
  · intro e st' hd
    simp [run, hrec, hd]
  · intro r hd
    simp [run, hrec, hd]

theorem c9_exception_safety_witness :
    dispatch sampleState sampleEventRaise
        (pyStrip sampleEventRaise.message_str) 0 apiNone =
      .error ("invalid literal for int() with base 10: '²'",
        { sampleState with user_last_request := [("u1", 0)] }) ∧
    run sampleState sampleEventRaise 0 apiNone =
      (some (false,
        "❌ 插件运行出错：invalid literal for int() with base 10: '²'",
        "netdisk_search"),
       { sampleState with user_last_request := [("u1", 0)] }) := by
  refine ⟨rfl, ?_⟩
  exact (c9_exception_safety sampleState sampleEventRaise 0 apiNone rfl).1
    "invalid literal for int() with base 10: '²'"
    { sampleState with user_last_request := [("u1", 0)] } rfl

end NetdiskSearch
